import Mathlib

/-!
Shallow embedding of the translation request pipeline of the
Biatus-Maina/translation-engine repository.

The two source files `src/app/main.py` and `src/app/main_vercel.py` each hold
a FastAPI endpoint `translate_text` together with a helper
`detect_language_with_confidence`, a static table `SUPPORTED_LANGUAGES`, and a
listing endpoint `get_supported_languages`.  We embed each file in its own
namespace (`App` for `main.py`, `AppVercel` for `main_vercel.py`), modelling:

* Python floats of the confidence heuristic as exact rationals (`ℚ`);
* the two external collaborators (langdetect's `detect`, deep-translator's
  `GoogleTranslator(...).translate`) as function parameters returning
  `Except Unit String` (an `Except.error` models the collaborator raising);
* Python exception flow explicitly: `PyExc.http s d` models
  `HTTPException(status_code=s, detail=d)`, `PyExc.generic` models any other
  exception.  FastAPI's `HTTPException` is a subclass of `Exception`, so the
  inner `except Exception` handler of the source catches it too; the embedding
  keeps the raw `try`-body and its handler as separate definitions so this
  flow is visible;
* the calls made to the collaborators as explicit argument logs, so that
  "no call is made to the Translator" is the statement that the log is empty.
-/

namespace TranslationEngine

/-- A value `{"name": ..., "native_name": ...}` of the `SUPPORTED_LANGUAGES`
dictionary. -/
structure LangEntry where
  name : String
  native_name : String
deriving DecidableEq, Repr

/-- The Pydantic model `LanguageInfo` (code, name, native_name). -/
structure LanguageInfo where
  code : String
  name : String
  native_name : String
deriving DecidableEq, Repr

/-- The Pydantic model `TranslationResponse`.  `confidence_level` is a Python
float computed by exact decimal arithmetic in the source formula; it is
modelled as a rational. -/
structure TranslationResponse where
  original_text : String
  detected_language : String
  confidence_level : ℚ
  translated_text : String
  target_language : String
deriving DecidableEq, Repr

/-- A Python exception as visible to the handlers in `translate_text`:
either FastAPI's `HTTPException(status_code, detail)` or any other
exception. -/
inductive PyExc where
  | http (status : Nat) (detail : String)
  | generic
deriving DecidableEq, Repr

/-- The two external collaborators of the pipeline.  `detect` models
`langdetect.detect`; `translate src tgt text` models
`GoogleTranslator(source=src, target=tgt).translate(text)`.  An
`Except.error ()` models the collaborator raising an exception. -/
structure Collaborators where
  detect : String → Except Unit String
  translate : String → String → String → Except Unit String

instance {ε α : Type} [DecidableEq ε] [DecidableEq α] :
    DecidableEq (Except ε α) := fun a b =>
  match a, b with
  | .ok x, .ok y => decidable_of_iff (x = y) (by simp)
  | .ok _, .error _ => .isFalse (by simp)
  | .error _, .ok _ => .isFalse (by simp)
  | .error x, .error y => decidable_of_iff (x = y) (by simp)

/-- The observable behaviour of one call to the `translate_text` endpoint:
the HTTP outcome (a response or an `HTTPException`), plus the log of
arguments passed to the Language Detector and to the Translator. -/
structure PipelineResult where
  outcome : Except PyExc TranslationResponse
  detectorArgs : List String
  translatorArgs : List (String × String × String)
deriving DecidableEq, Repr

/-- The confidence heuristic `min(0.95, 0.7 + (len(text) * 0.01))` as a
function of the text length, in exact rational arithmetic. -/
def confidence_formula (n : ℕ) : ℚ :=
  min (95/100 : ℚ) (7/10 + (n : ℚ) * (1/100))

/-- Python's `str.strip()`: the string with leading and trailing whitespace
removed (whitespace per `Char.isWhitespace`). -/
def py_strip (s : String) : String :=
  ⟨List.reverse (List.dropWhile Char.isWhitespace
    (List.reverse (List.dropWhile Char.isWhitespace s.data)))⟩

end TranslationEngine

namespace TranslationEngine.App

/-- The module-level dictionary `SUPPORTED_LANGUAGES` of src/app/main.py, as an
association list in the dictionary's insertion order. -/
def SUPPORTED_LANGUAGES : List (String × TranslationEngine.LangEntry) := [
  ("af", TranslationEngine.LangEntry.mk "Afrikaans" "Afrikaans"),
  ("sq", TranslationEngine.LangEntry.mk "Albanian" "Shqip"),
  ("am", TranslationEngine.LangEntry.mk "Amharic" "አማርኛ"),
  ("ar", TranslationEngine.LangEntry.mk "Arabic" "العربية"),
  ("hy", TranslationEngine.LangEntry.mk "Armenian" "Հայերեն"),
  ("az", TranslationEngine.LangEntry.mk "Azerbaijani" "Azərbaycan"),
  ("eu", TranslationEngine.LangEntry.mk "Basque" "Euskara"),
  ("be", TranslationEngine.LangEntry.mk "Belarusian" "Беларуская"),
  ("bn", TranslationEngine.LangEntry.mk "Bengali" "বাংলা"),
  ("bs", TranslationEngine.LangEntry.mk "Bosnian" "Bosanski"),
  ("bg", TranslationEngine.LangEntry.mk "Bulgarian" "Български"),
  ("ca", TranslationEngine.LangEntry.mk "Catalan" "Català"),
  ("ceb", TranslationEngine.LangEntry.mk "Cebuano" "Cebuano"),
  ("zh", TranslationEngine.LangEntry.mk "Chinese (Simplified)" "中文 (简体)"),
  ("zh-TW", TranslationEngine.LangEntry.mk "Chinese (Traditional)" "中文 (繁體)"),
  ("co", TranslationEngine.LangEntry.mk "Corsican" "Corsu"),
  ("hr", TranslationEngine.LangEntry.mk "Croatian" "Hrvatski"),
  ("cs", TranslationEngine.LangEntry.mk "Czech" "Čeština"),
  ("da", TranslationEngine.LangEntry.mk "Danish" "Dansk"),
  ("nl", TranslationEngine.LangEntry.mk "Dutch" "Nederlands"),
  ("en", TranslationEngine.LangEntry.mk "English" "English"),
  ("eo", TranslationEngine.LangEntry.mk "Esperanto" "Esperanto"),
  ("et", TranslationEngine.LangEntry.mk "Estonian" "Eesti"),
  ("fi", TranslationEngine.LangEntry.mk "Finnish" "Suomi"),
  ("fr", TranslationEngine.LangEntry.mk "French" "Français"),
  ("fy", TranslationEngine.LangEntry.mk "Frisian" "Frysk"),
  ("gl", TranslationEngine.LangEntry.mk "Galician" "Galego"),
  ("ka", TranslationEngine.LangEntry.mk "Georgian" "ქართული"),
  ("de", TranslationEngine.LangEntry.mk "German" "Deutsch"),
  ("el", TranslationEngine.LangEntry.mk "Greek" "Ελληνικά"),
  ("gu", TranslationEngine.LangEntry.mk "Gujarati" "ગુજરાતી"),
  ("ht", TranslationEngine.LangEntry.mk "Haitian Creole" "Kreyòl Ayisyen"),
  ("ha", TranslationEngine.LangEntry.mk "Hausa" "Hausa"),
  ("haw", TranslationEngine.LangEntry.mk "Hawaiian" "ʻŌlelo Hawaiʻi"),
  ("he", TranslationEngine.LangEntry.mk "Hebrew" "עברית"),
  ("hi", TranslationEngine.LangEntry.mk "Hindi" "हिन्दी"),
  ("hmn", TranslationEngine.LangEntry.mk "Hmong" "Hmong"),
  ("hu", TranslationEngine.LangEntry.mk "Hungarian" "Magyar"),
  ("is", TranslationEngine.LangEntry.mk "Icelandic" "Íslenska"),
  ("ig", TranslationEngine.LangEntry.mk "Igbo" "Igbo"),
  ("id", TranslationEngine.LangEntry.mk "Indonesian" "Indonesia"),
  ("ga", TranslationEngine.LangEntry.mk "Irish" "Gaeilge"),
  ("it", TranslationEngine.LangEntry.mk "Italian" "Italiano"),
  ("ja", TranslationEngine.LangEntry.mk "Japanese" "日本語"),
  ("jv", TranslationEngine.LangEntry.mk "Javanese" "Basa Jawa"),
  ("kn", TranslationEngine.LangEntry.mk "Kannada" "ಕನ್ನಡ"),
  ("kk", TranslationEngine.LangEntry.mk "Kazakh" "Қазақ"),
  ("km", TranslationEngine.LangEntry.mk "Khmer" "ខ្មែរ"),
  ("ko", TranslationEngine.LangEntry.mk "Korean" "한국어"),
  ("ku", TranslationEngine.LangEntry.mk "Kurdish" "Kurdî"),
  ("ky", TranslationEngine.LangEntry.mk "Kyrgyz" "Кыргызча"),
  ("lo", TranslationEngine.LangEntry.mk "Lao" "ລາວ"),
  ("la", TranslationEngine.LangEntry.mk "Latin" "Latina"),
  ("lv", TranslationEngine.LangEntry.mk "Latvian" "Latviešu"),
  ("lt", TranslationEngine.LangEntry.mk "Lithuanian" "Lietuvių"),
  ("lb", TranslationEngine.LangEntry.mk "Luxembourgish" "Lëtzebuergesch"),
  ("mk", TranslationEngine.LangEntry.mk "Macedonian" "Македонски"),
  ("mg", TranslationEngine.LangEntry.mk "Malagasy" "Malagasy"),
  ("ms", TranslationEngine.LangEntry.mk "Malay" "Bahasa Melayu"),
  ("ml", TranslationEngine.LangEntry.mk "Malayalam" "മലയാളം"),
  ("mt", TranslationEngine.LangEntry.mk "Maltese" "Malti"),
  ("mi", TranslationEngine.LangEntry.mk "Maori" "Māori"),
  ("mr", TranslationEngine.LangEntry.mk "Marathi" "मराठी"),
  ("mn", TranslationEngine.LangEntry.mk "Mongolian" "Монгол"),
  ("my", TranslationEngine.LangEntry.mk "Myanmar (Burmese)" "မြန်မာ (ဗမာ)"),
  ("ne", TranslationEngine.LangEntry.mk "Nepali" "नेपाली"),
  ("no", TranslationEngine.LangEntry.mk "Norwegian" "Norsk"),
  ("ny", TranslationEngine.LangEntry.mk "Nyanja (Chichewa)" "Nyanja (Chichewa)"),
  ("or", TranslationEngine.LangEntry.mk "Odia (Oriya)" "ଓଡ଼ିଆ (ଓଡ଼ିଆ)"),
  ("ps", TranslationEngine.LangEntry.mk "Pashto" "پښتو"),
  ("fa", TranslationEngine.LangEntry.mk "Persian" "فارسی"),
  ("pl", TranslationEngine.LangEntry.mk "Polish" "Polski"),
  ("pt", TranslationEngine.LangEntry.mk "Portuguese" "Português"),
  ("pa", TranslationEngine.LangEntry.mk "Punjabi" "ਪੰਜਾਬੀ"),
  ("ro", TranslationEngine.LangEntry.mk "Romanian" "Română"),
  ("ru", TranslationEngine.LangEntry.mk "Russian" "Русский"),
  ("sm", TranslationEngine.LangEntry.mk "Samoan" "Gagana Samoa"),
  ("gd", TranslationEngine.LangEntry.mk "Scots Gaelic" "Gàidhlig"),
  ("sr", TranslationEngine.LangEntry.mk "Serbian" "Српски"),
  ("st", TranslationEngine.LangEntry.mk "Sesotho" "Sesotho"),
  ("sn", TranslationEngine.LangEntry.mk "Shona" "Shona"),
  ("sd", TranslationEngine.LangEntry.mk "Sindhi" "سنڌي"),
  ("si", TranslationEngine.LangEntry.mk "Sinhala (Sinhalese)" "සිංහල"),
  ("sk", TranslationEngine.LangEntry.mk "Slovak" "Slovenčina"),
  ("sl", TranslationEngine.LangEntry.mk "Slovenian" "Slovenščina"),
  ("so", TranslationEngine.LangEntry.mk "Somali" "Soomaali"),
  ("es", TranslationEngine.LangEntry.mk "Spanish" "Español"),
  ("su", TranslationEngine.LangEntry.mk "Sundanese" "Basa Sunda"),
  ("sw", TranslationEngine.LangEntry.mk "Swahili" "Kiswahili"),
  ("sv", TranslationEngine.LangEntry.mk "Swedish" "Svenska"),
  ("tg", TranslationEngine.LangEntry.mk "Tajik" "Тоҷикӣ"),
  ("ta", TranslationEngine.LangEntry.mk "Tamil" "தமிழ்"),
  ("tt", TranslationEngine.LangEntry.mk "Tatar" "Татар"),
  ("te", TranslationEngine.LangEntry.mk "Telugu" "తెలుగు"),
  ("th", TranslationEngine.LangEntry.mk "Thai" "ไทย"),
  ("tr", TranslationEngine.LangEntry.mk "Turkish" "Türkçe"),
  ("tk", TranslationEngine.LangEntry.mk "Turkmen" "Türkmen"),
  ("ak", TranslationEngine.LangEntry.mk "Twi" "Twi"),
  ("uk", TranslationEngine.LangEntry.mk "Ukrainian" "Українська"),
  ("ur", TranslationEngine.LangEntry.mk "Urdu" "اردو"),
  ("ug", TranslationEngine.LangEntry.mk "Uyghur" "ئۇيغۇرچە"),
  ("uz", TranslationEngine.LangEntry.mk "Uzbek" "O\x27zbek"),
  ("ve", TranslationEngine.LangEntry.mk "Venda" "Tshivenda"),
  ("vi", TranslationEngine.LangEntry.mk "Vietnamese" "Tiếng Việt"),
  ("cy", TranslationEngine.LangEntry.mk "Welsh" "Cymraeg"),
  ("xh", TranslationEngine.LangEntry.mk "Xhosa" "isiXhosa"),
  ("yi", TranslationEngine.LangEntry.mk "Yiddish" "יידיש"),
  ("yo", TranslationEngine.LangEntry.mk "Yoruba" "Yorùbá"),
  ("zu", TranslationEngine.LangEntry.mk "Zulu" "isiZulu")
]

/-- `detect_language_with_confidence` of src/app/main.py.  Calls the detector; on
success pairs the detected code with `min(0.95, 0.7 + (len(text) * 0.01))`;
on any detector exception falls back to `("en", 0.5)`. -/
def detect_language_with_confidence (d : String → Except Unit String)
    (text : String) : String × ℚ :=
  match d text with
  | .ok detected_lang =>
      (detected_lang, min (95/100 : ℚ) (7/10 + (text.length : ℚ) * (1/100)))
  | .error _ => ("en", 1/2)

/-- The body of the inner `try` of `translate_text` in src/app/main.py: construct the
translator and call it (a raised exception becomes `PyExc.generic`); if the
result is falsy raise `HTTPException(500, "Translation failed")`; otherwise
build the `TranslationResponse`. -/
def translation_attempt (tr : String → String → String → Except Unit String)
    (src tgt text : String) (conf : ℚ) :
    Except TranslationEngine.PyExc TranslationEngine.TranslationResponse :=
  match tr src tgt text with
  | .error _ => .error .generic
  | .ok translated_text =>
      if translated_text = "" then .error (.http 500 "Translation failed")
      else .ok ⟨text, src, conf, translated_text, tgt⟩

/-- The inner `try ... except Exception` of `translate_text` in src/app/main.py: any
exception escaping the body — the Translator raising, or the
`HTTPException(500, "Translation failed")` itself, since `HTTPException`
subclasses `Exception` — is replaced by
`HTTPException(500, "Translation service error")`. -/
def translation_attempt_handled
    (tr : String → String → String → Except Unit String)
    (src tgt text : String) (conf : ℚ) :
    Except TranslationEngine.PyExc TranslationEngine.TranslationResponse :=
  match translation_attempt tr src tgt text conf with
  | .error _ => .error (.http 500 "Translation service error")
  | .ok r => .ok r

/-- The body of the outer `try` of `translate_text` in src/app/main.py: empty-text
check, target-language check, detection, same-language short-circuit,
delegation.  Returns the outcome together with the argument logs of the two
collaborators. -/
def translate_body (C : TranslationEngine.Collaborators) (text target : String) :
    Except TranslationEngine.PyExc TranslationEngine.TranslationResponse
      × List String × List (String × String × String) :=
  if TranslationEngine.py_strip text = "" then
    (.error (.http 400 "Text cannot be empty"), [], [])
  else if (SUPPORTED_LANGUAGES.lookup target).isNone then
    (.error (.http 400 "Target language not supported"), [], [])
  else
    let dc := detect_language_with_confidence C.detect text
    if dc.1 = target then
      (.ok ⟨text, dc.1, dc.2, text, target⟩, [text], [])
    else
      (translation_attempt_handled C.translate dc.1 target text dc.2,
       [text], [(dc.1, target, text)])

/-- The outer exception handlers of `translate_text` in src/app/main.py:
`except HTTPException: raise` re-raises unchanged, while `except Exception`
becomes `HTTPException(500, "Internal server error")`. -/
def handle_outer :
    Except TranslationEngine.PyExc TranslationEngine.TranslationResponse →
    Except TranslationEngine.PyExc TranslationEngine.TranslationResponse
  | .ok r => .ok r
  | .error (.http s d) => .error (.http s d)
  | .error .generic => .error (.http 500 "Internal server error")

/-- The `POST /api/translate` endpoint `translate_text` of src/app/main.py. -/
def translate_text (C : TranslationEngine.Collaborators) (text target : String) :
    TranslationEngine.PipelineResult :=
  let r := translate_body C text target
  ⟨handle_outer r.1, r.2.1, r.2.2⟩

/-- The `GET /api/languages` endpoint `get_supported_languages` of src/app/main.py:
one `LanguageInfo` per table entry, in table order. -/
def get_supported_languages : List TranslationEngine.LanguageInfo :=
  SUPPORTED_LANGUAGES.map (fun p => ⟨p.1, p.2.name, p.2.native_name⟩)

end TranslationEngine.App

namespace TranslationEngine.AppVercel

/-- The module-level dictionary `SUPPORTED_LANGUAGES` of src/app/main_vercel.py, as an
association list in the dictionary's insertion order. -/
def SUPPORTED_LANGUAGES : List (String × TranslationEngine.LangEntry) := [
  ("af", TranslationEngine.LangEntry.mk "Afrikaans" "Afrikaans"),
  ("sq", TranslationEngine.LangEntry.mk "Albanian" "Shqip"),
  ("am", TranslationEngine.LangEntry.mk "Amharic" "አማርኛ"),
  ("ar", TranslationEngine.LangEntry.mk "Arabic" "العربية"),
  ("hy", TranslationEngine.LangEntry.mk "Armenian" "Հայերեն"),
  ("az", TranslationEngine.LangEntry.mk "Azerbaijani" "Azərbaycan"),
  ("eu", TranslationEngine.LangEntry.mk "Basque" "Euskara"),
  ("be", TranslationEngine.LangEntry.mk "Belarusian" "Беларуская"),
  ("bn", TranslationEngine.LangEntry.mk "Bengali" "বাংলা"),
  ("bs", TranslationEngine.LangEntry.mk "Bosnian" "Bosanski"),
  ("bg", TranslationEngine.LangEntry.mk "Bulgarian" "Български"),
  ("ca", TranslationEngine.LangEntry.mk "Catalan" "Català"),
  ("ceb", TranslationEngine.LangEntry.mk "Cebuano" "Cebuano"),
  ("zh", TranslationEngine.LangEntry.mk "Chinese (Simplified)" "中文 (简体)"),
  ("zh-TW", TranslationEngine.LangEntry.mk "Chinese (Traditional)" "中文 (繁體)"),
  ("co", TranslationEngine.LangEntry.mk "Corsican" "Corsu"),
  ("hr", TranslationEngine.LangEntry.mk "Croatian" "Hrvatski"),
  ("cs", TranslationEngine.LangEntry.mk "Czech" "Čeština"),
  ("da", TranslationEngine.LangEntry.mk "Danish" "Dansk"),
  ("nl", TranslationEngine.LangEntry.mk "Dutch" "Nederlands"),
  ("en", TranslationEngine.LangEntry.mk "English" "English"),
  ("eo", TranslationEngine.LangEntry.mk "Esperanto" "Esperanto"),
  ("et", TranslationEngine.LangEntry.mk "Estonian" "Eesti"),
  ("fi", TranslationEngine.LangEntry.mk "Finnish" "Suomi"),
  ("fr", TranslationEngine.LangEntry.mk "French" "Français"),
  ("fy", TranslationEngine.LangEntry.mk "Frisian" "Frysk"),
  ("gl", TranslationEngine.LangEntry.mk "Galician" "Galego"),
  ("ka", TranslationEngine.LangEntry.mk "Georgian" "ქართული"),
  ("de", TranslationEngine.LangEntry.mk "German" "Deutsch"),
  ("el", TranslationEngine.LangEntry.mk "Greek" "Ελληνικά"),
  ("gu", TranslationEngine.LangEntry.mk "Gujarati" "ગુજરાતી"),
  ("ht", TranslationEngine.LangEntry.mk "Haitian Creole" "Kreyòl Ayisyen"),
  ("ha", TranslationEngine.LangEntry.mk "Hausa" "Hausa"),
  ("haw", TranslationEngine.LangEntry.mk "Hawaiian" "ʻŌlelo Hawaiʻi"),
  ("he", TranslationEngine.LangEntry.mk "Hebrew" "עברית"),
  ("hi", TranslationEngine.LangEntry.mk "Hindi" "हिन्दी"),
  ("hmn", TranslationEngine.LangEntry.mk "Hmong" "Hmong"),
  ("hu", TranslationEngine.LangEntry.mk "Hungarian" "Magyar"),
  ("is", TranslationEngine.LangEntry.mk "Icelandic" "Íslenska"),
  ("ig", TranslationEngine.LangEntry.mk "Igbo" "Igbo"),
  ("id", TranslationEngine.LangEntry.mk "Indonesian" "Indonesia"),
  ("ga", TranslationEngine.LangEntry.mk "Irish" "Gaeilge"),
  ("it", TranslationEngine.LangEntry.mk "Italian" "Italiano"),
  ("ja", TranslationEngine.LangEntry.mk "Japanese" "日本語"),
  ("jv", TranslationEngine.LangEntry.mk "Javanese" "Basa Jawa"),
  ("kn", TranslationEngine.LangEntry.mk "Kannada" "ಕನ್ನಡ"),
  ("kk", TranslationEngine.LangEntry.mk "Kazakh" "Қазақ"),
  ("km", TranslationEngine.LangEntry.mk "Khmer" "ខ្មែរ"),
  ("ko", TranslationEngine.LangEntry.mk "Korean" "한국어"),
  ("ku", TranslationEngine.LangEntry.mk "Kurdish" "Kurdî"),
  ("ky", TranslationEngine.LangEntry.mk "Kyrgyz" "Кыргызча"),
  ("lo", TranslationEngine.LangEntry.mk "Lao" "ລາວ"),
  ("la", TranslationEngine.LangEntry.mk "Latin" "Latina"),
  ("lv", TranslationEngine.LangEntry.mk "Latvian" "Latviešu"),
  ("lt", TranslationEngine.LangEntry.mk "Lithuanian" "Lietuvių"),
  ("lb", TranslationEngine.LangEntry.mk "Luxembourgish" "Lëtzebuergesch"),
  ("mk", TranslationEngine.LangEntry.mk "Macedonian" "Македонски"),
  ("mg", TranslationEngine.LangEntry.mk "Malagasy" "Malagasy"),
  ("ms", TranslationEngine.LangEntry.mk "Malay" "Bahasa Melayu"),
  ("ml", TranslationEngine.LangEntry.mk "Malayalam" "മലയാളം"),
  ("mt", TranslationEngine.LangEntry.mk "Maltese" "Malti"),
  ("mi", TranslationEngine.LangEntry.mk "Maori" "Māori"),
  ("mr", TranslationEngine.LangEntry.mk "Marathi" "मराठी"),
  ("mn", TranslationEngine.LangEntry.mk "Mongolian" "Монгол"),
  ("my", TranslationEngine.LangEntry.mk "Myanmar (Burmese)" "မြန်မာ (ဗမာ)"),
  ("ne", TranslationEngine.LangEntry.mk "Nepali" "नेपाली"),
  ("no", TranslationEngine.LangEntry.mk "Norwegian" "Norsk"),
  ("ny", TranslationEngine.LangEntry.mk "Nyanja (Chichewa)" "Nyanja (Chichewa)"),
  ("or", TranslationEngine.LangEntry.mk "Odia (Oriya)" "ଓଡ଼ିଆ (ଓଡ଼ିଆ)"),
  ("ps", TranslationEngine.LangEntry.mk "Pashto" "پښتو"),
  ("fa", TranslationEngine.LangEntry.mk "Persian" "فارسی"),
  ("pl", TranslationEngine.LangEntry.mk "Polish" "Polski"),
  ("pt", TranslationEngine.LangEntry.mk "Portuguese" "Português"),
  ("pa", TranslationEngine.LangEntry.mk "Punjabi" "ਪੰਜਾਬੀ"),
  ("ro", TranslationEngine.LangEntry.mk "Romanian" "Română"),
  ("ru", TranslationEngine.LangEntry.mk "Russian" "Русский"),
  ("sm", TranslationEngine.LangEntry.mk "Samoan" "Gagana Samoa"),
  ("gd", TranslationEngine.LangEntry.mk "Scots Gaelic" "Gàidhlig"),
  ("sr", TranslationEngine.LangEntry.mk "Serbian" "Српски"),
  ("st", TranslationEngine.LangEntry.mk "Sesotho" "Sesotho"),
  ("sn", TranslationEngine.LangEntry.mk "Shona" "Shona"),
  ("sd", TranslationEngine.LangEntry.mk "Sindhi" "سنڌي"),
  ("si", TranslationEngine.LangEntry.mk "Sinhala (Sinhalese)" "සිංහල"),
  ("sk", TranslationEngine.LangEntry.mk "Slovak" "Slovenčina"),
  ("sl", TranslationEngine.LangEntry.mk "Slovenian" "Slovenščina"),
  ("so", TranslationEngine.LangEntry.mk "Somali" "Soomaali"),
  ("es", TranslationEngine.LangEntry.mk "Spanish" "Español"),
  ("su", TranslationEngine.LangEntry.mk "Sundanese" "Basa Sunda"),
  ("sw", TranslationEngine.LangEntry.mk "Swahili" "Kiswahili"),
  ("sv", TranslationEngine.LangEntry.mk "Swedish" "Svenska"),
  ("tg", TranslationEngine.LangEntry.mk "Tajik" "Тоҷикӣ"),
  ("ta", TranslationEngine.LangEntry.mk "Tamil" "தமிழ்"),
  ("tt", TranslationEngine.LangEntry.mk "Tatar" "Татар"),
  ("te", TranslationEngine.LangEntry.mk "Telugu" "తెలుగు"),
  ("th", TranslationEngine.LangEntry.mk "Thai" "ไทย"),
  ("tr", TranslationEngine.LangEntry.mk "Turkish" "Türkçe"),
  ("tk", TranslationEngine.LangEntry.mk "Turkmen" "Türkmen"),
  ("ak", TranslationEngine.LangEntry.mk "Twi" "Twi"),
  ("uk", TranslationEngine.LangEntry.mk "Ukrainian" "Українська"),
  ("ur", TranslationEngine.LangEntry.mk "Urdu" "اردو"),
  ("ug", TranslationEngine.LangEntry.mk "Uyghur" "ئۇيغۇرچە"),
  ("uz", TranslationEngine.LangEntry.mk "Uzbek" "O\x27zbek"),
  ("ve", TranslationEngine.LangEntry.mk "Venda" "Tshivenda"),
  ("vi", TranslationEngine.LangEntry.mk "Vietnamese" "Tiếng Việt"),
  ("cy", TranslationEngine.LangEntry.mk "Welsh" "Cymraeg"),
  ("xh", TranslationEngine.LangEntry.mk "Xhosa" "isiXhosa"),
  ("yi", TranslationEngine.LangEntry.mk "Yiddish" "יידיש"),
  ("yo", TranslationEngine.LangEntry.mk "Yoruba" "Yorùbá"),
  ("zu", TranslationEngine.LangEntry.mk "Zulu" "isiZulu")
]

/-- `detect_language_with_confidence` of src/app/main_vercel.py.  Calls the detector; on
success pairs the detected code with `min(0.95, 0.7 + (len(text) * 0.01))`;
on any detector exception falls back to `("en", 0.5)`. -/
def detect_language_with_confidence (d : String → Except Unit String)
    (text : String) : String × ℚ :=
  match d text with
  | .ok detected_lang =>
      (detected_lang, min (95/100 : ℚ) (7/10 + (text.length : ℚ) * (1/100)))
  | .error _ => ("en", 1/2)

/-- The body of the inner `try` of `translate_text` in src/app/main_vercel.py: construct the
translator and call it (a raised exception becomes `PyExc.generic`); if the
result is falsy raise `HTTPException(500, "Translation failed")`; otherwise
build the `TranslationResponse`. -/
def translation_attempt (tr : String → String → String → Except Unit String)
    (src tgt text : String) (conf : ℚ) :
    Except TranslationEngine.PyExc TranslationEngine.TranslationResponse :=
  match tr src tgt text with
  | .error _ => .error .generic
  | .ok translated_text =>
      if translated_text = "" then .error (.http 500 "Translation failed")
      else .ok ⟨text, src, conf, translated_text, tgt⟩

/-- The inner `try ... except Exception` of `translate_text` in src/app/main_vercel.py: any
exception escaping the body — the Translator raising, or the
`HTTPException(500, "Translation failed")` itself, since `HTTPException`
subclasses `Exception` — is replaced by
`HTTPException(500, "Translation service error")`. -/
def translation_attempt_handled
    (tr : String → String → String → Except Unit String)
    (src tgt text : String) (conf : ℚ) :
    Except TranslationEngine.PyExc TranslationEngine.TranslationResponse :=
  match translation_attempt tr src tgt text conf with
  | .error _ => .error (.http 500 "Translation service error")
  | .ok r => .ok r

/-- The body of the outer `try` of `translate_text` in src/app/main_vercel.py: empty-text
check, target-language check, detection, same-language short-circuit,
delegation.  Returns the outcome together with the argument logs of the two
collaborators. -/
def translate_body (C : TranslationEngine.Collaborators) (text target : String) :
    Except TranslationEngine.PyExc TranslationEngine.TranslationResponse
      × List String × List (String × String × String) :=
  if TranslationEngine.py_strip text = "" then
    (.error (.http 400 "Text cannot be empty"), [], [])
  else if (SUPPORTED_LANGUAGES.lookup target).isNone then
    (.error (.http 400 "Target language not supported"), [], [])
  else
    let dc := detect_language_with_confidence C.detect text
    if dc.1 = target then
      (.ok ⟨text, dc.1, dc.2, text, target⟩, [text], [])
    else
      (translation_attempt_handled C.translate dc.1 target text dc.2,
       [text], [(dc.1, target, text)])

/-- The outer exception handlers of `translate_text` in src/app/main_vercel.py:
`except HTTPException: raise` re-raises unchanged, while `except Exception`
becomes `HTTPException(500, "Internal server error")`. -/
def handle_outer :
    Except TranslationEngine.PyExc TranslationEngine.TranslationResponse →
    Except TranslationEngine.PyExc TranslationEngine.TranslationResponse
  | .ok r => .ok r
  | .error (.http s d) => .error (.http s d)
  | .error .generic => .error (.http 500 "Internal server error")

/-- The `POST /api/translate` endpoint `translate_text` of src/app/main_vercel.py. -/
def translate_text (C : TranslationEngine.Collaborators) (text target : String) :
    TranslationEngine.PipelineResult :=
  let r := translate_body C text target
  ⟨handle_outer r.1, r.2.1, r.2.2⟩

/-- The `GET /api/languages` endpoint `get_supported_languages` of src/app/main_vercel.py:
one `LanguageInfo` per table entry, in table order. -/
def get_supported_languages : List TranslationEngine.LanguageInfo :=
  SUPPORTED_LANGUAGES.map (fun p => ⟨p.1, p.2.name, p.2.native_name⟩)

end TranslationEngine.AppVercel

namespace TranslationEngine

/-- A detector stub that always reports English. -/
def stubDetectEn : String → Except Unit String := fun _ => .ok "en"

/-- Collaborators: detector reports "en", translator returns "ok". -/
def stubCollabEn : Collaborators := ⟨stubDetectEn, fun _ _ _ => .ok "ok"⟩

/-- Collaborators: both the detector and the translator raise. -/
def stubCollabFail : Collaborators := ⟨fun _ => .error (), fun _ _ _ => .error ()⟩

/-- Collaborators: detector reports "fr", translator raises. -/
def stubCollabFr : Collaborators := ⟨fun _ => .ok "fr", fun _ _ _ => .error ()⟩

/-- Collaborators: detector reports "fr", translator returns "Hello world!". -/
def stubCollabBonjour : Collaborators :=
  ⟨fun _ => .ok "fr", fun _ _ _ => .ok "Hello world!"⟩

/-- Collaborators: detector reports "fr", translator returns the empty
string. -/
def stubCollabEmptyResult : Collaborators :=
  ⟨fun _ => .ok "fr", fun _ _ _ => .ok ""⟩

theorem handle_outer_handled (tr : String → String → String → Except Unit String)
    (src tgt text : String) (conf : ℚ) :
    App.handle_outer (App.translation_attempt_handled tr src tgt text conf)
      = App.translation_attempt_handled tr src tgt text conf := by
  unfold App.translation_attempt_handled
  cases App.translation_attempt tr src tgt text conf with
  | ok r => rfl
  | error e => rfl

/-- C1: the claim says that when the Translator returns an empty result the
endpoint fails with detail "Translation failed", not "Translation service
error".  The code refutes this: the inner try-body does raise
`HTTPException(500, "Translation failed")` (first conjunct), but its own
`except Exception` handler catches that exception — `HTTPException` is a
subclass of `Exception` — and replaces it, so the endpoint actually answers
500 "Translation service error" (second conjunct): the claim describes the
evident intent of the code, and the code contradicts it. -/
theorem claim_C1_empty_translation_swallowed :
    App.translation_attempt stubCollabEmptyResult.translate "fr" "en"
        "Bonjour le monde!" (confidence_formula 17)
      = .error (.http 500 "Translation failed") ∧
    App.translate_text stubCollabEmptyResult "Bonjour le monde!" "en"
      = ⟨.error (.http 500 "Translation service error"),
         ["Bonjour le monde!"], [("fr", "en", "Bonjour le monde!")]⟩ :=
  ⟨rfl, by decide⟩

/-- C2: on detector success the computed confidence equals
`min(0.95, 0.7 + 0.01 * length(text))` (exact rational arithmetic), lies in
`[0.7, 0.95]`, is monotone non-decreasing in the text length, and equals
exactly `0.95` whenever the length is at least 25. -/
theorem claim_C2_confidence_heuristic (d : String → Except Unit String)
    (text lang : String) (h : d text = .ok lang) :
    (App.detect_language_with_confidence d text).2 = confidence_formula text.length ∧
    (7/10 : ℚ) ≤ (App.detect_language_with_confidence d text).2 ∧
    (App.detect_language_with_confidence d text).2 ≤ 95/100 ∧
    Monotone confidence_formula ∧
    (25 ≤ text.length → (App.detect_language_with_confidence d text).2 = 95/100) := by
  have he : (App.detect_language_with_confidence d text).2
      = confidence_formula text.length := by
    simp [App.detect_language_with_confidence, h, confidence_formula]
  have hmono : Monotone confidence_formula := by
    intro a b hab
    unfold confidence_formula
    refine min_le_min le_rfl ?_
    have : (a : ℚ) ≤ (b : ℚ) := by exact_mod_cast hab
    nlinarith
  refine ⟨he, ?_, ?_, hmono, ?_⟩
  · rw [he]
    unfold confidence_formula
    refine le_min (by norm_num) ?_
    have : (0 : ℚ) ≤ (text.length : ℚ) := by positivity
    nlinarith
  · rw [he]
    exact min_le_left _ _
  · intro hn
    rw [he]
    unfold confidence_formula
    have : (25 : ℚ) ≤ (text.length : ℚ) := by exact_mod_cast hn
    rw [min_eq_left (by nlinarith)]

/-- C2 witness: the theorem applied to a stub detector and the text
"Hello". -/
theorem claim_C2_confidence_heuristic_witness :
    stubDetectEn "Hello" = .ok "en" ∧
    ((App.detect_language_with_confidence stubDetectEn "Hello").2
        = confidence_formula "Hello".length ∧
      (7/10 : ℚ) ≤ (App.detect_language_with_confidence stubDetectEn "Hello").2 ∧
      (App.detect_language_with_confidence stubDetectEn "Hello").2 ≤ 95/100 ∧
      Monotone confidence_formula ∧
      (25 ≤ "Hello".length →
        (App.detect_language_with_confidence stubDetectEn "Hello").2 = 95/100)) :=
  ⟨rfl, claim_C2_confidence_heuristic stubDetectEn "Hello" "en" rfl⟩

/-- C3: validation runs before any external call, empty-text check first:
whitespace-only text yields 400 "Text cannot be empty" with both collaborator
logs empty, regardless of the target; otherwise an unsupported target yields
400 "Target language not supported", again with both logs empty. -/
theorem claim_C3_validation_order (C : Collaborators) (text target : String) :
    (py_strip text = "" →
      App.translate_text C text target
        = ⟨.error (.http 400 "Text cannot be empty"), [], []⟩) ∧
    (py_strip text ≠ "" → App.SUPPORTED_LANGUAGES.lookup target = none →
      App.translate_text C text target
        = ⟨.error (.http 400 "Target language not supported"), [], []⟩) := by
  constructor
  · intro h
    simp [App.translate_text, App.translate_body, h, App.handle_outer]
  · intro h1 h2
    simp [App.translate_text, App.translate_body, h1, h2, App.handle_outer]

/-- C3 witness: the theorem applied to whitespace-only text with a valid
target, and to "Hello" with the unknown target "xx-not-a-real-code". -/
theorem claim_C3_validation_order_witness :
    (py_strip "   " = "" ∧
      App.translate_text stubCollabEn "   " "es"
        = ⟨.error (.http 400 "Text cannot be empty"), [], []⟩) ∧
    (py_strip "Hello" ≠ "" ∧
      App.SUPPORTED_LANGUAGES.lookup "xx-not-a-real-code" = none ∧
      App.translate_text stubCollabEn "Hello" "xx-not-a-real-code"
        = ⟨.error (.http 400 "Target language not supported"), [], []⟩) :=
  ⟨⟨by decide, (claim_C3_validation_order stubCollabEn "   " "es").1 (by decide)⟩,
   ⟨by decide, by decide,
    (claim_C3_validation_order stubCollabEn "Hello" "xx-not-a-real-code").2
      (by decide) (by decide)⟩⟩

/-- C4: when the detected language equals the target (exact string match),
the endpoint returns the input text unchanged with the heuristic confidence,
and the translator log is empty — the Translator is never called. -/
theorem claim_C4_short_circuit (C : Collaborators) (text target : String)
    (h1 : py_strip text ≠ "")
    (h2 : (App.SUPPORTED_LANGUAGES.lookup target).isSome)
    (h3 : C.detect text = .ok target) :
    App.translate_text C text target
      = ⟨.ok ⟨text, target, confidence_formula text.length, text, target⟩,
         [text], []⟩ := by
  obtain ⟨e, he⟩ := Option.isSome_iff_exists.mp h2
  simp [App.translate_text, App.translate_body, App.detect_language_with_confidence,
    h1, he, h3, App.handle_outer, confidence_formula]

/-- C4 witness: the theorem applied to "Hello" with detected and target
language both "en". -/
theorem claim_C4_short_circuit_witness :
    py_strip "Hello" ≠ "" ∧
    (App.SUPPORTED_LANGUAGES.lookup "en").isSome ∧
    stubCollabEn.detect "Hello" = .ok "en" ∧
    App.translate_text stubCollabEn "Hello" "en"
      = ⟨.ok ⟨"Hello", "en", confidence_formula "Hello".length, "Hello", "en"⟩,
         ["Hello"], []⟩ :=
  ⟨by decide, by decide, rfl,
   claim_C4_short_circuit stubCollabEn "Hello" "en" (by decide) (by decide) rfl⟩

/-- C5: a detector failure is not propagated: detection yields
`("en", 0.5)`, and for a target other than "en" the pipeline still performs
the translation attempt with source "en" — the translator log records exactly
the call `("en", target, text)` and the outcome is that attempt's outcome. -/
theorem claim_C5_detector_fallback (C : Collaborators) (text target : String)
    (h1 : py_strip text ≠ "")
    (h2 : (App.SUPPORTED_LANGUAGES.lookup target).isSome)
    (h3 : C.detect text = .error ())
    (h4 : target ≠ "en") :
    App.detect_language_with_confidence C.detect text = ("en", 1/2) ∧
    App.translate_text C text target
      = ⟨App.translation_attempt_handled C.translate "en" target text (1/2),
         [text], [("en", target, text)]⟩ := by
  obtain ⟨e, he⟩ := Option.isSome_iff_exists.mp h2
  have hd : App.detect_language_with_confidence C.detect text = ("en", 1/2) := by
    simp [App.detect_language_with_confidence, h3]
  have h4' : ¬(("en" : String) = target) := fun hx => h4 hx.symm
  refine ⟨hd, ?_⟩
  simp [App.translate_text, App.translate_body, h1, he, hd, h4',
    handle_outer_handled]

/-- C5 witness: the theorem applied to a failing detector with the text
"anything" and the target "fr". -/
theorem claim_C5_detector_fallback_witness :
    py_strip "anything" ≠ "" ∧
    (App.SUPPORTED_LANGUAGES.lookup "fr").isSome ∧
    stubCollabFail.detect "anything" = .error () ∧
    ("fr" : String) ≠ "en" ∧
    (App.detect_language_with_confidence stubCollabFail.detect "anything"
        = ("en", 1/2) ∧
      App.translate_text stubCollabFail "anything" "fr"
        = ⟨App.translation_attempt_handled stubCollabFail.translate "en" "fr"
             "anything" (1/2),
           ["anything"], [("en", "fr", "anything")]⟩) :=
  ⟨by decide, by decide, rfl, by decide,
   claim_C5_detector_fallback stubCollabFail "anything" "fr" (by decide)
     (by decide) rfl (by decide)⟩

/-- C6: when the detected language differs from the (supported) target and
the Translator raises, the endpoint answers 500 "Translation service
error". -/
theorem claim_C6_translator_error (C : Collaborators) (text target : String)
    (h1 : py_strip text ≠ "")
    (h2 : (App.SUPPORTED_LANGUAGES.lookup target).isSome)
    (h3 : (App.detect_language_with_confidence C.detect text).1 ≠ target)
    (h4 : C.translate (App.detect_language_with_confidence C.detect text).1 target text
            = .error ()) :
    App.translate_text C text target
      = ⟨.error (.http 500 "Translation service error"), [text],
         [((App.detect_language_with_confidence C.detect text).1, target, text)]⟩ := by
  obtain ⟨e, he⟩ := Option.isSome_iff_exists.mp h2
  simp [App.translate_text, App.translate_body, h1, he, h3,
    App.translation_attempt_handled, App.translation_attempt, h4, App.handle_outer]

/-- C6 witness: the theorem applied to a detector reporting "fr" and a
raising translator, with target "en". -/
theorem claim_C6_translator_error_witness :
    py_strip "Bonjour le monde!" ≠ "" ∧
    (App.SUPPORTED_LANGUAGES.lookup "en").isSome ∧
    (App.detect_language_with_confidence stubCollabFr.detect "Bonjour le monde!").1
      ≠ "en" ∧
    stubCollabFr.translate
      (App.detect_language_with_confidence stubCollabFr.detect "Bonjour le monde!").1
      "en" "Bonjour le monde!" = .error () ∧
    App.translate_text stubCollabFr "Bonjour le monde!" "en"
      = ⟨.error (.http 500 "Translation service error"), ["Bonjour le monde!"],
         [((App.detect_language_with_confidence stubCollabFr.detect
              "Bonjour le monde!").1, "en", "Bonjour le monde!")]⟩ :=
  ⟨by decide, by decide, by decide, rfl,
   claim_C6_translator_error stubCollabFr "Bonjour le monde!" "en" (by decide)
     (by decide) (by decide) rfl⟩

/-- C7: when the detected language differs from the (supported) target and
the Translator returns a non-empty result, the endpoint returns that result
as `translated_text`, the untrimmed input as `original_text`, the detection
pair as `detected_language`/`confidence_level`, and echoes the target. -/
theorem claim_C7_success_response (C : Collaborators) (text target tout : String)
    (h1 : py_strip text ≠ "")
    (h2 : (App.SUPPORTED_LANGUAGES.lookup target).isSome)
    (h3 : (App.detect_language_with_confidence C.detect text).1 ≠ target)
    (h4 : C.translate (App.detect_language_with_confidence C.detect text).1 target text
            = .ok tout)
    (h5 : tout ≠ "") :
    App.translate_text C text target
      = ⟨.ok ⟨text, (App.detect_language_with_confidence C.detect text).1,
              (App.detect_language_with_confidence C.detect text).2, tout, target⟩,
         [text],
         [((App.detect_language_with_confidence C.detect text).1, target, text)]⟩ := by
  obtain ⟨e, he⟩ := Option.isSome_iff_exists.mp h2
  simp [App.translate_text, App.translate_body, h1, he, h3,
    App.translation_attempt_handled, App.translation_attempt, h4, h5,
    App.handle_outer]

/-- C7 witness: the spec scenario — "Bonjour le monde!" detected as "fr",
translated to "Hello world!" with target "en". -/
theorem claim_C7_success_response_witness :
    py_strip "Bonjour le monde!" ≠ "" ∧
    (App.SUPPORTED_LANGUAGES.lookup "en").isSome ∧
    (App.detect_language_with_confidence stubCollabBonjour.detect
        "Bonjour le monde!").1 ≠ "en" ∧
    stubCollabBonjour.translate
      (App.detect_language_with_confidence stubCollabBonjour.detect
        "Bonjour le monde!").1
      "en" "Bonjour le monde!" = .ok "Hello world!" ∧
    ("Hello world!" : String) ≠ "" ∧
    App.translate_text stubCollabBonjour "Bonjour le monde!" "en"
      = ⟨.ok ⟨"Bonjour le monde!",
              (App.detect_language_with_confidence stubCollabBonjour.detect
                "Bonjour le monde!").1,
              (App.detect_language_with_confidence stubCollabBonjour.detect
                "Bonjour le monde!").2,
              "Hello world!", "en"⟩,
         ["Bonjour le monde!"],
         [((App.detect_language_with_confidence stubCollabBonjour.detect
              "Bonjour le monde!").1, "en", "Bonjour le monde!")]⟩ :=
  ⟨by decide, by decide, by decide, rfl, by decide,
   claim_C7_success_response stubCollabBonjour "Bonjour le monde!" "en"
     "Hello world!" (by decide) (by decide) (by decide) rfl (by decide)⟩

/-- C8: the languages listing has one element per entry of the static table,
its element codes are exactly the table keys in the table's insertion order
(hence every element's code is a key of the table). -/
theorem claim_C8_languages_listing :
    App.get_supported_languages.length = App.SUPPORTED_LANGUAGES.length ∧
    App.get_supported_languages.map LanguageInfo.code
      = App.SUPPORTED_LANGUAGES.map Prod.fst ∧
    App.get_supported_languages.all
      (fun li => (App.SUPPORTED_LANGUAGES.lookup li.code).isSome) = true :=
  ⟨rfl, rfl, rfl⟩

/-- C9: for identical collaborator behaviour and identical input, the
pipeline of `src/app/main.py` and the one of `src/app/main_vercel.py`
produce the same outcome and the same collaborator call logs. -/
theorem claim_C9_vercel_equivalence (C : Collaborators) (text target : String) :
    App.translate_text C text target = AppVercel.translate_text C text target := rfl

/-- C10: with target "en" and a failing detector, the request short-circuits:
the response carries the input text unchanged, detected language "en" and
confidence 0.5, and the translator log is empty. -/
theorem claim_C10_detector_fail_short_circuit (C : Collaborators) (text : String)
    (h1 : py_strip text ≠ "")
    (h2 : C.detect text = .error ()) :
    App.translate_text C text "en"
      = ⟨.ok ⟨text, "en", 1/2, text, "en"⟩, [text], []⟩ := by
  have he : App.SUPPORTED_LANGUAGES.lookup "en"
      = some (LangEntry.mk "English" "English") := rfl
  simp [App.translate_text, App.translate_body, h1, he,
    App.detect_language_with_confidence, h2, App.handle_outer]

/-- C10 witness: the theorem applied to "anything" with a failing
detector. -/
theorem claim_C10_detector_fail_short_circuit_witness :
    py_strip "anything" ≠ "" ∧
    stubCollabFail.detect "anything" = .error () ∧
    App.translate_text stubCollabFail "anything" "en"
      = ⟨.ok ⟨"anything", "en", 1/2, "anything", "en"⟩, ["anything"], []⟩ :=
  ⟨by decide, rfl,
   claim_C10_detector_fail_short_circuit stubCollabFail "anything" (by decide) rfl⟩

end TranslationEngine
